import Mathlib

/-
Verification of the interpelbot reconciliation logic (interpelbot.py).

The definitions below are a shallow embedding of the Python source:
  - `Reply`, `Inquiry`, `Answer` mirror the dictionaries produced by
    `process_api_item` and `compare_and_notify_new_answers`;
  - the date machinery mirrors `calculate_days_between_dates` and its inner
    `parse_date` (strptime with the three formats, after stripping every
    occurrence of "Z" and "+00:00");
  - `compare_and_notify_new_answers` mirrors the reconciler, with the three
    external collaborators (the per-inquiry detail API lookup, the MP-id to
    display-name conversion, and the config-driven mention lookup) passed in
    as function parameters, since they perform network or config-file I/O.
-/

/-- One reply sub-record, as filtered by `process_api_item` (lines 691-698). -/
structure Reply where
  key : String
  prolongation : Bool
  lastModified : String
  receiptDate : String
  author : String
deriving DecidableEq

/-- One inquiry record, as produced by `process_api_item` (lines 700-709).
`replies` is the stored reply count, `replies_data` the filtered reply list. -/
structure Inquiry where
  id : String
  type_ : String
  title : String
  url : String
  from_ : String
  replies : Nat
  replies_data : List Reply
  submission_date : Option String
deriving DecidableEq

/-- One change record, as appended to `new_answers` by
`compare_and_notify_new_answers` (lines 402-417 and 474-489). -/
structure Answer where
  id : String
  type_ : String
  title : String
  url : String
  from_ : String
  previous_replies : Nat
  current_replies : Nat
  new_count : Nat
  has_prolongation : Bool
  reply_authors : List String
  mattermost_users : String
  submission_date : Option String
  first_response_date : Option String
  days_to_response : Option Int
deriving DecidableEq

/-! ### Date parsing (`calculate_days_between_dates`, lines 74-106) -/

/-- Removes every occurrence of the six characters `+00:00`, scanning left to
right without overlap, as Python's `str.replace('+00:00', '')` does. -/
def removeUTCSuffix : List Char → List Char
  | '+' :: '0' :: '0' :: ':' :: '0' :: '0' :: rest => removeUTCSuffix rest
  | c :: rest => c :: removeUTCSuffix rest
  | [] => []

/-- `date_str.replace('Z', '').replace('+00:00', '')` (line 82): removing all
`Z` characters is a filter; then all `+00:00` occurrences are removed. -/
def stripTZChars (l : List Char) : List Char :=
  removeUTCSuffix (l.filter (fun c => c ≠ 'Z'))

/-- Take up to `n` leading decimal digits. -/
def takeDigits : Nat → List Char → List Char × List Char
  | 0, cs => ([], cs)
  | _ + 1, [] => ([], [])
  | n + 1, c :: cs =>
      if c.isDigit then
        let (ds, rest) := takeDigits n cs
        (c :: ds, rest)
      else ([], c :: cs)

def digitsToNat (ds : List Char) : Nat :=
  ds.foldl (fun acc c => acc * 10 + (c.toNat - '0'.toNat)) 0

/-- A parsed `datetime`, with strptime's default values for fields a format
does not mention. -/
structure PyDateTime where
  year : Nat := 1900
  month : Nat := 1
  day : Nat := 1
  hour : Nat := 0
  minute : Nat := 0
  second : Nat := 0
deriving DecidableEq

/-- One strptime format directive: a numeric field or a literal character. -/
inductive FmtDir where
  | dY | dm | dd | dH | dM | dS
  | lit (c : Char)
deriving DecidableEq

/-- Maximum digit width of a directive (CPython: `%Y` is four digits, the
two-digit fields accept one or two). -/
def dirWidth : FmtDir → Nat
  | .dY => 4
  | _ => 2

/-- Minimum digit width of a directive. -/
def dirMin : FmtDir → Nat
  | .dY => 4
  | _ => 1

def setDir (d : FmtDir) (v : Nat) (t : PyDateTime) : PyDateTime :=
  match d with
  | .dY => { t with year := v }
  | .dm => { t with month := v }
  | .dd => { t with day := v }
  | .dH => { t with hour := v }
  | .dM => { t with minute := v }
  | .dS => { t with second := v }
  | .lit _ => t

/-- Match a format against the input; the whole input must be consumed
(strptime rejects unconverted trailing data). -/
def runFormat : List FmtDir → List Char → PyDateTime → Option PyDateTime
  | [], [], t => some t
  | [], _ :: _, _ => none
  | FmtDir.lit c :: ds, cs, t =>
      match cs with
      | [] => none
      | c' :: rest => if c' = c then runFormat ds rest t else none
  | d :: ds, cs, t =>
      let (digits, rest) := takeDigits (dirWidth d) cs
      if dirMin d ≤ digits.length then
        runFormat ds rest (setDir d (digitsToNat digits) t)
      else none

def isLeapYear (y : Nat) : Bool :=
  (y % 4 == 0 && y % 100 != 0) || y % 400 == 0

def daysInMonth (y m : Nat) : Nat :=
  if m = 2 then (if isLeapYear y then 29 else 28)
  else if m = 4 ∨ m = 6 ∨ m = 9 ∨ m = 11 then 30
  else 31

/-- The range checks the `datetime` constructor performs on strptime's
output. -/
def validDT (t : PyDateTime) : Bool :=
  1 ≤ t.year && t.year ≤ 9999 &&
  1 ≤ t.month && t.month ≤ 12 &&
  1 ≤ t.day && t.day ≤ daysInMonth t.year t.month &&
  t.hour ≤ 23 && t.minute ≤ 59 && t.second ≤ 59

def tryFormat (fmt : List FmtDir) (cs : List Char) : Option PyDateTime :=
  match runFormat fmt cs {} with
  | some t => if validDT t then some t else none
  | none => none

/-- `'%Y-%m-%dT%H:%M:%S'` (line 86). -/
def fmtISOT : List FmtDir :=
  [.dY, .lit '-', .dm, .lit '-', .dd, .lit 'T', .dH, .lit ':', .dM, .lit ':', .dS]

/-- `'%Y-%m-%d'` (line 87). -/
def fmtDateOnly : List FmtDir :=
  [.dY, .lit '-', .dm, .lit '-', .dd]

/-- `'%Y-%m-%d %H:%M:%S'` (line 88). -/
def fmtSpaced : List FmtDir :=
  [.dY, .lit '-', .dm, .lit '-', .dd, .lit ' ', .dH, .lit ':', .dM, .lit ':', .dS]

/-- `parse_date` (lines 80-97): strip timezone markers, then try the three
formats in order; `none` models the raised `ValueError`. -/
def parse_date (s : String) : Option PyDateTime :=
  let cs := stripTZChars s.data
  match tryFormat fmtISOT cs with
  | some t => some t
  | none =>
      match tryFormat fmtDateOnly cs with
      | some t => some t
      | none => tryFormat fmtSpaced cs

/-- Days before month `m` in year `y`. -/
def daysBeforeMonth (y m : Nat) : Nat :=
  (List.range (m - 1)).foldl (fun acc i => acc + daysInMonth y (i + 1)) 0

/-- Proleptic-Gregorian ordinal day number (Python `date.toordinal`, up to a
constant offset, which cancels in differences). -/
def toOrdinal (t : PyDateTime) : Nat :=
  365 * (t.year - 1) + (t.year - 1) / 4 - (t.year - 1) / 100 + (t.year - 1) / 400
    + daysBeforeMonth t.year t.month + (t.day - 1)

def totalSeconds (t : PyDateTime) : Int :=
  (toOrdinal t : Int) * 86400 + t.hour * 3600 + t.minute * 60 + t.second

/-- `calculate_days_between_dates` (lines 74-106): `(date2 - date1).days`,
where `timedelta.days` floors; any parse failure yields `none`. -/
def calculate_days_between_dates (date1 date2 : String) : Option Int :=
  match parse_date date1, parse_date date2 with
  | some d1, some d2 => some (Int.fdiv (totalSeconds d2 - totalSeconds d1) 86400)
  | _, _ => none

/-! ### Timing helpers (`get_interpellation_timing_info`, lines 108-139) -/

/-- Python `min` over a list of strings, `none` for the empty list. -/
def pyMin (l : List String) : Option String :=
  l.foldl (fun acc s =>
    match acc with
    | none => some s
    | some m => if s < m then some s else some m) none

/-- The `first_response_date` accumulation loop (lines 123-126 and 393-397):
the smallest non-empty `lastModified`, or `none` when all are empty. -/
def minLastModified (rs : List Reply) : Option String :=
  rs.foldl (fun acc r =>
    if r.lastModified = "" then acc
    else
      match acc with
      | none => some r.lastModified
      | some m => if r.lastModified < m then some r.lastModified else some m) none

/-- `get_interpellation_timing_info` (lines 108-139): collect non-empty
receipt dates and the earliest `lastModified`; with no receipt dates the
function returns `(None, None, None)` even when a `lastModified` exists. -/
def get_interpellation_timing_info (rs : List Reply) :
    Option String × Option String × Option Int :=
  let receipt_dates := (rs.map Reply.receiptDate).filter (fun s => s ≠ "")
  let first_response_date := minLastModified rs
  match pyMin receipt_dates with
  | none => (none, none, none)
  | some submission_date =>
      (some submission_date, first_response_date,
        match first_response_date with
        | some f => calculate_days_between_dates submission_date f
        | none => none)

/-- Python truthiness of an optional string: `None` and `''` are falsy. -/
def strOptTruthy : Option String → Bool
  | none => false
  | some s => s ≠ ""

/-- The submission-date / first-response / latency resolution of
`compare_and_notify_new_answers` (lines 378-400 and 450-472). `api` stands
for `get_interpellation_submission_date_from_api`, an external HTTP lookup
keyed by inquiry id and type. -/
def resolveTiming (api : String → String → Option String) (it : Inquiry) :
    Option String × Option String × Option Int :=
  let sd1 := if strOptTruthy it.submission_date then it.submission_date
             else api it.id it.type_
  match sd1 with
  | some s =>
      if s ≠ "" then
        let first_response_date := minLastModified it.replies_data
        (some s, first_response_date,
          match first_response_date with
          | some f => calculate_days_between_dates s f
          | none => none)
      else get_interpellation_timing_info it.replies_data
  | none => get_interpellation_timing_info it.replies_data

/-! ### Reconciler (`compare_and_notify_new_answers`, lines 297-502) -/

/-- The lookup key `f"{id}_{type}"` (lines 319 and 331). -/
def inqKey (it : Inquiry) : String :=
  it.id ++ "_" ++ it.type_

/-- The `previous_dict` lookup (lines 316-320): the dictionary maps each key
to the LAST previous item with a truthy id and that key. -/
def prevLookup (previous : List Inquiry) (key : String) : Option Inquiry :=
  (previous.filter (fun p => p.id ≠ "" ∧ inqKey p = key)).getLast?

/-- The reply count found under a key, absence counting as 0. -/
def lookupCount (pl : String → Option Inquiry) (key : String) : Nat :=
  match pl key with
  | some p => p.replies
  | none => 0

/-- `current_replies_data[previous_replies:] if len(...) > previous_replies
else []` (line 353). -/
def newRepliesSlice (rs : List Reply) (prevCount : Nat) : List Reply :=
  if prevCount < rs.length then rs.drop prevCount else []

/-- Author collection (lines 354-359 and 431-438): non-empty authors, first
occurrence kept, order preserved. -/
def collectAuthors (rs : List Reply) : List String :=
  rs.foldl (fun acc r =>
    if r.author ≠ "" ∧ r.author ∉ acc then acc ++ [r.author] else acc) []

/-- The prolongation flag (lines 344-369 and 425-441): true iff the reply
list is non-empty and no reply has `prolongation != True`. -/
def hasProlongation (rs : List Reply) : Bool :=
  !(rs.any fun r => !r.prolongation) && !rs.isEmpty

/-- The change record both branches of the reconciler append (lines 402-417
and 474-489). `names` stands for `convert_mp_ids_to_names` and `users` for
`get_mattermost_users_for_interpellation` with the loaded config, both
external lookups on the raw `from` field. -/
def mkAnswerFrom (api : String → String → Option String)
    (names users : String → String)
    (it : Inquiry) (previousReplies : Nat) (authors : List String) : Answer :=
  let t := resolveTiming api it
  { id := it.id
    type_ := it.type_
    title := it.title
    url := it.url
    from_ := names it.from_
    previous_replies := previousReplies
    current_replies := it.replies
    new_count := it.replies - previousReplies
    has_prolongation := hasProlongation it.replies_data
    reply_authors := authors
    mattermost_users := users it.from_
    submission_date := t.1
    first_response_date := t.2.1
    days_to_response := t.2.2 }

/-- The body of the `for current_item in current_results` loop
(lines 324-489): skip falsy ids; with a previous entry, emit only on reply
growth, collecting authors from the new suffix; without one, emit only when
the current count is positive, collecting authors from the whole list. -/
def processItem (api : String → String → Option String)
    (names users : String → String)
    (pl : String → Option Inquiry) (it : Inquiry) : Option Answer :=
  if it.id = "" then none
  else
    match pl (inqKey it) with
    | some prev =>
        if prev.replies < it.replies then
          some (mkAnswerFrom api names users it prev.replies
            (collectAuthors (newRepliesSlice it.replies_data prev.replies)))
        else none
    | none =>
        if 0 < it.replies then
          some (mkAnswerFrom api names users it 0
            (collectAuthors it.replies_data))
        else none

/-- `compare_and_notify_new_answers` (lines 297-502): an empty (falsy)
previous snapshot short-circuits to no answers (lines 299-302); otherwise
each current item is processed in order. -/
def compare_and_notify_new_answers (api : String → String → Option String)
    (names users : String → String)
    (current previous : List Inquiry) : List Answer :=
  if previous = [] then []
  else current.filterMap (processItem api names users (prevLookup previous))

/-! ### Cross-person aggregation (`send_consolidated_notification`,
lines 195-217) -/

/-- The de-duplication key `f"{answer['id']}_{answer['type']}"` (line 203). -/
def answerKey (a : Answer) : String :=
  a.id ++ "_" ++ a.type_

/-- Tokenizer worker: split on runs of spaces, dropping empty tokens. -/
def splitSpacesAux : List Char → List Char → List String
  | [], acc => if acc = [] then [] else [String.mk acc.reverse]
  | ' ' :: rest, acc =>
      if acc = [] then splitSpacesAux rest []
      else String.mk acc.reverse :: splitSpacesAux rest []
  | c :: rest, acc => splitSpacesAux rest (c :: acc)

/-- Python `str.split()` on the space-separated mention strings (the config
stores mention tokens space-separated, so space is the only whitespace that
occurs). -/
def pySplit (s : String) : List String :=
  splitSpacesAux s.data []

/-- `list(dict.fromkeys(l))`: drop later duplicates, keep first-seen order. -/
def dedupFirst (l : List String) : List String :=
  l.foldl (fun acc s => if s ∈ acc then acc else acc ++ [s]) []

/-- The mention merge on collision (lines 207-214): only when BOTH strings
are truthy are the token lists concatenated and de-duplicated; otherwise the
existing value is kept unchanged. -/
def mergeUsers (existing newUsers : String) : String :=
  if existing ≠ "" ∧ newUsers ≠ "" then
    " ".intercalate (dedupFirst (pySplit existing ++ pySplit newUsers))
  else existing

/-- One step of building `unique_answers` (lines 201-214): a colliding key
updates the stored record's mentions in place, a fresh key appends. -/
def insertAnswer (acc : List Answer) (a : Answer) : List Answer :=
  if acc.any (fun b => answerKey b = answerKey a) then
    acc.map (fun b =>
      if answerKey b = answerKey a then
        { b with mattermost_users := mergeUsers b.mattermost_users a.mattermost_users }
      else b)
  else acc ++ [a]

/-- `unique_answers_list` (lines 200-217): insertion-ordered dictionary
build followed by `list(...values())`. -/
def dedupAnswers (answers : List Answer) : List Answer :=
  answers.foldl insertAnswer []

/-! ### Spec-side derived notions used in the claim statements -/

/-- De-duplication of a string list keeping the first occurrence and the
original order, skipping empty strings. -/
def dedupNonempty (l : List String) : List String :=
  l.foldl (fun acc s => if s ≠ "" ∧ s ∉ acc then acc ++ [s] else acc) []

/-! ### Shared lemmas -/

lemma newRepliesSlice_eq_drop (rs : List Reply) (p : Nat) :
    newRepliesSlice rs p = rs.drop p := by
  unfold newRepliesSlice
  split
  · rfl
  · exact (List.drop_eq_nil_of_le (by omega)).symm

lemma newRepliesSlice_zero (rs : List Reply) : newRepliesSlice rs 0 = rs := by
  rw [newRepliesSlice_eq_drop, List.drop_zero]

lemma collectAuthors_foldl (rs : List Reply) :
    ∀ acc, rs.foldl
        (fun acc r => if r.author ≠ "" ∧ r.author ∉ acc then acc ++ [r.author] else acc) acc
      = (rs.map Reply.author).foldl
        (fun acc s => if s ≠ "" ∧ s ∉ acc then acc ++ [s] else acc) acc := by
  induction rs with
  | nil => intro acc; rfl
  | cons r rs ih =>
      intro acc
      simp only [List.foldl_cons, List.map_cons]
      exact ih _

lemma collectAuthors_eq_dedupNonempty (rs : List Reply) :
    collectAuthors rs = dedupNonempty (rs.map Reply.author) := by
  unfold collectAuthors dedupNonempty
  exact collectAuthors_foldl rs []

lemma minLastModified_foldl (rs : List Reply) :
    ∀ acc, rs.foldl
        (fun acc r =>
          if r.lastModified = "" then acc
          else
            match acc with
            | none => some r.lastModified
            | some m => if r.lastModified < m then some r.lastModified else some m) acc
      = ((rs.map Reply.lastModified).filter (fun s => s ≠ "")).foldl
          (fun acc s =>
            match acc with
            | none => some s
            | some m => if s < m then some s else some m) acc := by
  induction rs with
  | nil => intro acc; rfl
  | cons r rs ih =>
      intro acc
      simp only [List.foldl_cons, List.map_cons, List.filter_cons]
      by_cases h : r.lastModified = ""
      · rw [if_pos h, if_neg (by simp [h])]
        exact ih acc
      · rw [if_neg h, if_pos (by simp [h])]
        simp only [List.foldl_cons]
        exact ih _

lemma minLastModified_eq_pyMin (rs : List Reply) :
    minLastModified rs = pyMin ((rs.map Reply.lastModified).filter (fun s => s ≠ "")) := by
  unfold minLastModified pyMin
  exact minLastModified_foldl rs none

lemma hasProlongation_iff (rs : List Reply) :
    hasProlongation rs = true ↔ rs ≠ [] ∧ ∀ r ∈ rs, r.prolongation = true := by
  unfold hasProlongation
  simp [List.isEmpty_iff, and_comm]

lemma processItem_eq_some {api : String → String → Option String}
    {names users : String → String} {pl : String → Option Inquiry}
    {it : Inquiry} {a : Answer}
    (h : processItem api names users pl it = some a) :
    it.id ≠ "" ∧ lookupCount pl (inqKey it) < it.replies ∧
      a = mkAnswerFrom api names users it (lookupCount pl (inqKey it))
            (collectAuthors (newRepliesSlice it.replies_data (lookupCount pl (inqKey it)))) := by
  by_cases hid : it.id = ""
  · unfold processItem at h
    rw [if_pos hid] at h
    exact absurd h (by simp)
  · unfold processItem at h
    rw [if_neg hid] at h
    cases hpl : pl (inqKey it) with
    | some prev =>
        have hcount : lookupCount pl (inqKey it) = prev.replies := by
          simp [lookupCount, hpl]
        simp only [hpl] at h
        by_cases hlt : prev.replies < it.replies
        · rw [if_pos hlt] at h
          injection h with h'
          exact ⟨hid, by rw [hcount]; exact hlt, by rw [hcount]; exact h'.symm⟩
        · rw [if_neg hlt] at h
          exact absurd h (by simp)
    | none =>
        have hcount : lookupCount pl (inqKey it) = 0 := by
          simp [lookupCount, hpl]
        simp only [hpl] at h
        by_cases hlt : 0 < it.replies
        · rw [if_pos hlt] at h
          injection h with h'
          refine ⟨hid, by rw [hcount]; exact hlt, ?_⟩
          rw [hcount, newRepliesSlice_zero]
          exact h'.symm
        · rw [if_neg hlt] at h
          exact absurd h (by simp)

lemma processItem_emits {api : String → String → Option String}
    {names users : String → String} {pl : String → Option Inquiry}
    {it : Inquiry}
    (hid : it.id ≠ "") (hlt : lookupCount pl (inqKey it) < it.replies) :
    processItem api names users pl it =
      some (mkAnswerFrom api names users it (lookupCount pl (inqKey it))
        (collectAuthors (newRepliesSlice it.replies_data (lookupCount pl (inqKey it))))) := by
  unfold processItem
  rw [if_neg hid]
  cases hpl : pl (inqKey it) with
  | some prev =>
      have hcount : lookupCount pl (inqKey it) = prev.replies := by
        simp [lookupCount, hpl]
      rw [hcount] at hlt ⊢
      simp [hlt]
  | none =>
      have hcount : lookupCount pl (inqKey it) = 0 := by
        simp [lookupCount, hpl]
      rw [hcount] at hlt ⊢
      simp [hlt, newRepliesSlice_zero]

lemma mkAnswerFrom_id (api : String → String → Option String)
    (names users : String → String) (it : Inquiry) (p : Nat) (au : List String) :
    (mkAnswerFrom api names users it p au).id = it.id := rfl

lemma mkAnswerFrom_type (api : String → String → Option String)
    (names users : String → String) (it : Inquiry) (p : Nat) (au : List String) :
    (mkAnswerFrom api names users it p au).type_ = it.type_ := rfl

lemma sublist_map_filterMap {α β γ : Type} (f : α → Option β) (g : β → γ)
    (g' : α → γ) (H : ∀ x b, f x = some b → g b = g' x) (l : List α) :
    ((l.filterMap f).map g).Sublist (l.map g') := by
  induction l with
  | nil => simp
  | cons x xs ih =>
      cases hfx : f x with
      | none =>
          simp only [List.filterMap_cons, hfx, List.map_cons]
          exact ih.cons _
      | some b =>
          simp only [List.filterMap_cons, hfx, List.map_cons]
          rw [H x b hfx]
          exact ih.cons₂ _

lemma getLast?_eq_of_all {α : Type} (l : List α) (a : α)
    (hne : l ≠ []) (hall : ∀ x ∈ l, x = a) : l.getLast? = some a := by
  induction l with
  | nil => exact absurd rfl hne
  | cons x l ih =>
      cases l with
      | nil => simp [hall x (by simp)]
      | cons y l' =>
          rw [List.getLast?_cons_cons]
          exact ih (by simp) (fun z hz => hall z (by simp [hz]))

lemma key_suffix_inj {i1 i2 t1 t2 : String}
    (h1 : t1 = "INT" ∨ t1 = "ZAP") (h2 : t2 = "INT" ∨ t2 = "ZAP")
    (h : i1 ++ "_" ++ t1 = i2 ++ "_" ++ t2) : i1 = i2 ∧ t1 = t2 := by
  have hd : i1.data ++ ("_" ++ t1).data = i2.data ++ ("_" ++ t2).data := by
    have h' := congrArg String.data h
    simpa [String.data_append, List.append_assoc] using h'
  rcases h1 with rfl | rfl <;> rcases h2 with rfl | rfl <;>
    · have hinj := List.append_inj' hd (by decide)
      constructor
      · cases i1; cases i2; exact congrArg String.mk hinj.1
      · first
        | rfl
        | exact absurd hinj.2 (by decide)

/-! ### Concrete fixtures for witnesses and counterexamples -/

/-- Detail-lookup oracle returning no submission date. -/
def api0 : String → String → Option String := fun _ _ => none

/-- Name-resolution oracle that keeps the raw id string. -/
def names0 : String → String := fun s => s

/-- Mention-lookup oracle returning no mention tokens. -/
def users0 : String → String := fun _ => ""

def baseInq : Inquiry :=
  { id := "1", type_ := "INT", title := "", url := "", from_ := "",
    replies := 0, replies_data := [], submission_date := none }

def prolReply : Reply :=
  { key := "k1", prolongation := true, lastModified := "", receiptDate := "",
    author := "" }

def answerReplyX : Reply :=
  { key := "k2", prolongation := false, lastModified := "", receiptDate := "",
    author := "X" }

def emptyAuthorReply : Reply :=
  { key := "k3", prolongation := false, lastModified := "", receiptDate := "",
    author := "" }

def baseAnswer : Answer :=
  { id := "1", type_ := "INT", title := "", url := "", from_ := "",
    previous_replies := 0, current_replies := 1, new_count := 1,
    has_prolongation := false, reply_authors := [], mattermost_users := "",
    submission_date := none, first_response_date := none,
    days_to_response := none }

/-! ### Claim C9 -/

/-- Claim C9: with an empty previous snapshot (the first run for a person),
`compare_and_notify_new_answers` returns no change records, whatever the
current snapshot holds — the reply counts of the current inquiries do not
matter. -/
theorem C9_first_run_emits_nothing (api : String → String → Option String)
    (names users : String → String) (current : List Inquiry)
    (_hc : current ≠ []) :
    compare_and_notify_new_answers api names users current [] = [] := by
  unfold compare_and_notify_new_answers
  simp

/-- Witness for C9 at a concrete non-empty current snapshot whose single
inquiry has two replies. -/
theorem C9_first_run_emits_nothing_witness :
    ([{ baseInq with replies := 2, replies_data := [prolReply, answerReplyX] }] : List Inquiry) ≠ [] ∧
    0 < ({ baseInq with replies := 2, replies_data := [prolReply, answerReplyX] } : Inquiry).replies ∧
    compare_and_notify_new_answers api0 names0 users0
      [{ baseInq with replies := 2, replies_data := [prolReply, answerReplyX] }] [] = [] :=
  ⟨by decide, by decide,
    C9_first_run_emits_nothing api0 names0 users0
      [{ baseInq with replies := 2, replies_data := [prolReply, answerReplyX] }] (by decide)⟩

/-! ### Claim C1 -/

/-- Counterexample to claim C1 as stated: with an empty previous snapshot
every inquiry is absent from it, so by the claim an inquiry with a positive
current reply count would have to produce a change record, yet the code's
first-run short-circuit emits nothing. -/
theorem C1_counterexample :
    0 < ({ baseInq with replies := 1, replies_data := [answerReplyX] } : Inquiry).replies ∧
    compare_and_notify_new_answers api0 names0 users0
      [{ baseInq with replies := 1, replies_data := [answerReplyX] }] [] = [] := by
  decide

/-- Claim C1 (amended): provided the previous snapshot is non-empty, a
change record with compound key `(id, type)` is emitted exactly when some
current inquiry with that id and type has a non-empty id and a current
reply count exceeding the count found under the string key `id + "_" +
type` in the previous snapshot (absence counting as 0, so an absent inquiry
emits exactly when its count is positive). -/
theorem C1_emission_iff_amended (api : String → String → Option String)
    (names users : String → String) (current previous : List Inquiry)
    (hprev : previous ≠ []) (i ty : String) :
    (∃ a ∈ compare_and_notify_new_answers api names users current previous,
        a.id = i ∧ a.type_ = ty) ↔
      ∃ it ∈ current, it.id = i ∧ it.type_ = ty ∧ it.id ≠ "" ∧
        lookupCount (prevLookup previous) (inqKey it) < it.replies := by
  unfold compare_and_notify_new_answers
  rw [if_neg hprev]
  constructor
  · rintro ⟨a, ha, hai, haty⟩
    obtain ⟨it, hit, hproc⟩ := List.mem_filterMap.mp ha
    obtain ⟨hid, hlt, heq⟩ := processItem_eq_some hproc
    refine ⟨it, hit, ?_, ?_, hid, hlt⟩
    · rw [← hai, heq]; rfl
    · rw [← haty, heq]; rfl
  · rintro ⟨it, hit, hi, hty, hid, hlt⟩
    exact ⟨mkAnswerFrom api names users it (lookupCount (prevLookup previous) (inqKey it))
        (collectAuthors (newRepliesSlice it.replies_data
          (lookupCount (prevLookup previous) (inqKey it)))),
      List.mem_filterMap.mpr ⟨it, hit, processItem_emits hid hlt⟩,
      by rw [← hi]; rfl, by rw [← hty]; rfl⟩

/-- Witness for the amended C1 at concrete snapshots: previous holds the
inquiry with one reply, current with two. -/
theorem C1_emission_iff_amended_witness :
    ([{ baseInq with replies := 1, replies_data := [prolReply] }] : List Inquiry) ≠ [] ∧
    ((∃ a ∈ compare_and_notify_new_answers api0 names0 users0
          [{ baseInq with replies := 2, replies_data := [prolReply, answerReplyX] }]
          [{ baseInq with replies := 1, replies_data := [prolReply] }],
        a.id = "1" ∧ a.type_ = "INT") ↔
      ∃ it ∈ [{ baseInq with replies := 2, replies_data := [prolReply, answerReplyX] }],
        it.id = "1" ∧ it.type_ = "INT" ∧ it.id ≠ "" ∧
          lookupCount (prevLookup [{ baseInq with replies := 1, replies_data := [prolReply] }])
            (inqKey it) < it.replies) :=
  ⟨by decide,
    C1_emission_iff_amended api0 names0 users0
      [{ baseInq with replies := 2, replies_data := [prolReply, answerReplyX] }]
      [{ baseInq with replies := 1, replies_data := [prolReply] }] (by decide) "1" "INT"⟩

/-! ### Claim C2 -/

/-- Claim C2: every emitted change record comes from a current inquiry, and
its `has_prolongation` flag is true exactly when that inquiry's entire
current reply list is non-empty and every reply in it is a prolongation; a
single non-prolongation reply anywhere in the full list makes it false. -/
theorem C2_prolongation_flag (api : String → String → Option String)
    (names users : String → String) (current previous : List Inquiry)
    (a : Answer)
    (ha : a ∈ compare_and_notify_new_answers api names users current previous) :
    ∃ it ∈ current, a.id = it.id ∧ a.type_ = it.type_ ∧
      (a.has_prolongation = true ↔
        it.replies_data ≠ [] ∧ ∀ r ∈ it.replies_data, r.prolongation = true) := by
  unfold compare_and_notify_new_answers at ha
  split at ha
  · exact absurd ha (by simp)
  · obtain ⟨it, hit, hproc⟩ := List.mem_filterMap.mp ha
    obtain ⟨hid, hlt, heq⟩ := processItem_eq_some hproc
    refine ⟨it, hit, by rw [heq]; rfl, by rw [heq]; rfl, ?_⟩
    rw [heq]
    show hasProlongation it.replies_data = true ↔ _
    exact hasProlongation_iff it.replies_data

/-- Witness for C2: a record emitted for an inquiry whose single reply is a
prolongation, so the flag is set. -/
theorem C2_prolongation_flag_witness :
    ({ baseAnswer with has_prolongation := true } : Answer) ∈
      compare_and_notify_new_answers api0 names0 users0
        [{ baseInq with replies := 1, replies_data := [prolReply] }] [baseInq] ∧
    (∃ it ∈ [{ baseInq with replies := 1, replies_data := [prolReply] }],
      ({ baseAnswer with has_prolongation := true } : Answer).id = it.id ∧
      ({ baseAnswer with has_prolongation := true } : Answer).type_ = it.type_ ∧
      (({ baseAnswer with has_prolongation := true } : Answer).has_prolongation = true ↔
        it.replies_data ≠ [] ∧ ∀ r ∈ it.replies_data, r.prolongation = true)) :=
  ⟨by decide,
    C2_prolongation_flag api0 names0 users0
      [{ baseInq with replies := 1, replies_data := [prolReply] }] [baseInq]
      { baseAnswer with has_prolongation := true } (by decide)⟩

/-! ### Claim C8 -/

/-- Claim C8: the compound keys of the emitted change records form a
sublist of the compound keys of the current snapshot, so the output
preserves the relative order in which the inquiries appear there. -/
theorem C8_output_order_preserved (api : String → String → Option String)
    (names users : String → String) (current previous : List Inquiry) :
    ((compare_and_notify_new_answers api names users current previous).map
        (fun a => (a.id, a.type_))).Sublist
      (current.map (fun it => (it.id, it.type_))) := by
  unfold compare_and_notify_new_answers
  split
  · simp
  · refine sublist_map_filterMap _ _ _ (fun x b hb => ?_) current
    obtain ⟨_, _, heq⟩ := processItem_eq_some hb
    rw [heq]
    rfl

/-! ### Claim C5 -/

/-- Claim C5: the tolerant date parser accepts all four literal inputs; the
three representations of the same instant (`T`-separated, space-separated,
and with a trailing `Z` stripped) parse to the identical datetime, so any
latency computed from them agrees (66 days from 2023-11-18 here); and a
non-parseable literal makes the latency unavailable (`none`) in either
argument position — never an exception (the function is total) and never
zero. -/
theorem C5_date_parsing :
    (parse_date "2024-01-23T22:01:02").isSome = true ∧
    (parse_date "2023-11-18").isSome = true ∧
    (parse_date "2024-01-23 22:01:02").isSome = true ∧
    (parse_date "2024-01-23T22:01:02Z").isSome = true ∧
    parse_date "2024-01-23 22:01:02" = parse_date "2024-01-23T22:01:02" ∧
    parse_date "2024-01-23T22:01:02Z" = parse_date "2024-01-23T22:01:02" ∧
    calculate_days_between_dates "2023-11-18" "2024-01-23T22:01:02" = some 66 ∧
    calculate_days_between_dates "2023-11-18" "2024-01-23 22:01:02" = some 66 ∧
    calculate_days_between_dates "2023-11-18" "2024-01-23T22:01:02Z" = some 66 ∧
    parse_date "not-a-date" = none ∧
    calculate_days_between_dates "not-a-date" "2024-01-23T22:01:02" = none ∧
    calculate_days_between_dates "2024-01-23T22:01:02" "not-a-date" = none := by
  decide

/-! ### Claim C7 -/

/-- Claim C7: reconciling a snapshot against itself yields no change
records. A snapshot, per the data model, carries the two valid type tags
and compound-key-distinct inquiries (id unique within a type), which the
two hypotheses state. -/
theorem C7_reconcile_idempotent (api : String → String → Option String)
    (names users : String → String) (S : List Inquiry)
    (htype : ∀ it ∈ S, it.type_ = "INT" ∨ it.type_ = "ZAP")
    (hdist : ∀ p ∈ S, ∀ q ∈ S, p.id = q.id → p.type_ = q.type_ → p = q) :
    compare_and_notify_new_answers api names users S S = [] := by
  unfold compare_and_notify_new_answers
  split
  · rfl
  · rw [List.filterMap_eq_nil_iff]
    intro it hit
    unfold processItem
    split
    · rfl
    · rename_i hid
      have hlook : prevLookup S (inqKey it) = some it := by
        unfold prevLookup
        apply getLast?_eq_of_all
        · exact List.ne_nil_of_mem (List.mem_filter.mpr ⟨hit, by simp [hid]⟩)
        · intro x hx
          obtain ⟨hxS, hxpred⟩ := List.mem_filter.mp hx
          have hxp : x.id ≠ "" ∧ inqKey x = inqKey it := by simpa using hxpred
          have hk := key_suffix_inj (htype x hxS) (htype it hit)
            (by simpa [inqKey] using hxp.2)
          exact hdist x hxS it hit hk.1 hk.2
      rw [hlook]
      simp

/-- Witness for C7: a concrete two-inquiry snapshot, one of each type, with
replies present. -/
theorem C7_reconcile_idempotent_witness :
    (∀ it ∈ ([{ baseInq with replies := 2 },
        { baseInq with id := "7", type_ := "ZAP", replies := 1 }] : List Inquiry),
      it.type_ = "INT" ∨ it.type_ = "ZAP") ∧
    (∀ p ∈ ([{ baseInq with replies := 2 },
        { baseInq with id := "7", type_ := "ZAP", replies := 1 }] : List Inquiry),
      ∀ q ∈ ([{ baseInq with replies := 2 },
        { baseInq with id := "7", type_ := "ZAP", replies := 1 }] : List Inquiry),
      p.id = q.id → p.type_ = q.type_ → p = q) ∧
    compare_and_notify_new_answers api0 names0 users0
      [{ baseInq with replies := 2 },
        { baseInq with id := "7", type_ := "ZAP", replies := 1 }]
      [{ baseInq with replies := 2 },
        { baseInq with id := "7", type_ := "ZAP", replies := 1 }] = [] :=
  ⟨by decide, by decide,
    C7_reconcile_idempotent api0 names0 users0
      [{ baseInq with replies := 2 },
        { baseInq with id := "7", type_ := "ZAP", replies := 1 }]
      (by decide) (by decide)⟩

/-! ### Claim C10 -/

/-- Counterexample to claim C10's exhibited instance: for id `"1_INT"` with
type `""` and id `"1"` with type `"INT"` the two lookup keys are NOT equal
(`"1_INT_"` vs `"1_INT"`), so this particular pair does not collide. -/
theorem C10_counterexample :
    ({ baseInq with id := "1_INT", type_ := "" } : Inquiry).id = "1_INT" ∧
    ({ baseInq with id := "1_INT", type_ := "" } : Inquiry).type_ = "" ∧
    ({ baseInq with id := "1", type_ := "INT" } : Inquiry).id = "1" ∧
    ({ baseInq with id := "1", type_ := "INT" } : Inquiry).type_ = "INT" ∧
    inqKey { baseInq with id := "1_INT", type_ := "" } ≠
      inqKey { baseInq with id := "1", type_ := "INT" } := by
  decide

/-- Claim C10 (amended): the string key `id + "_" + type` is genuinely not
injective on `(id, type)` pairs — witnessed by id `"1_I"` with type `"NT"`
versus id `"1"` with type `"I_NT"` — and both the reconciler's
previous-snapshot lookup and the cross-person de-duplication then treat the
two distinct inquiries as the same one: the reconciler emits nothing for a
current inquiry whose `(id, type)` pair is new but whose key collides with
a higher-count previous entry, and the aggregation merges two records with
distinct `(id, type)` into one. -/
theorem C10_key_aliasing_amended :
    inqKey { baseInq with id := "1_I", type_ := "NT", replies := 9 } =
      inqKey { baseInq with id := "1", type_ := "I_NT", replies := 2 } ∧
    (({ baseInq with id := "1_I", type_ := "NT", replies := 9 } : Inquiry).id,
      ({ baseInq with id := "1_I", type_ := "NT", replies := 9 } : Inquiry).type_) ≠
      (({ baseInq with id := "1", type_ := "I_NT", replies := 2 } : Inquiry).id,
        ({ baseInq with id := "1", type_ := "I_NT", replies := 2 } : Inquiry).type_) ∧
    0 < ({ baseInq with id := "1", type_ := "I_NT", replies := 2 } : Inquiry).replies ∧
    compare_and_notify_new_answers api0 names0 users0
      [{ baseInq with id := "1", type_ := "I_NT", replies := 2 }]
      [{ baseInq with id := "1_I", type_ := "NT", replies := 9 }] = [] ∧
    answerKey { baseAnswer with id := "1_I", type_ := "NT", mattermost_users := "A" } =
      answerKey { baseAnswer with id := "1", type_ := "I_NT", mattermost_users := "B" } ∧
    (({ baseAnswer with id := "1_I", type_ := "NT", mattermost_users := "A" } : Answer).id,
      ({ baseAnswer with id := "1_I", type_ := "NT", mattermost_users := "A" } : Answer).type_) ≠
      (({ baseAnswer with id := "1", type_ := "I_NT", mattermost_users := "B" } : Answer).id,
        ({ baseAnswer with id := "1", type_ := "I_NT", mattermost_users := "B" } : Answer).type_) ∧
    (dedupAnswers
      [{ baseAnswer with id := "1_I", type_ := "NT", mattermost_users := "A" },
        { baseAnswer with id := "1", type_ := "I_NT", mattermost_users := "B" }]).length = 1 := by
  decide

/-! ### Claim C3 -/

/-- Counterexample to claim C3 as stated: when the first-seen record's
mention string is empty and the colliding record's is not, the code skips
the merge entirely, so the kept record's mentions stay empty instead of
becoming the union `["B", "C"]`. -/
theorem C3_counterexample :
    answerKey baseAnswer =
      answerKey { baseAnswer with mattermost_users := "B C" } ∧
    baseAnswer.mattermost_users = "" ∧
    dedupFirst (pySplit baseAnswer.mattermost_users ++
      pySplit ({ baseAnswer with mattermost_users := "B C" } : Answer).mattermost_users) =
      ["B", "C"] ∧
    (dedupAnswers [baseAnswer, { baseAnswer with mattermost_users := "B C" }]).map
      (fun x => x.mattermost_users) = [""] := by
  decide

/-- Claim C3 (amended): on a key collision the merged record keeps every
field of the first-seen record; when BOTH records' mention strings are
non-empty its mention list becomes the de-duplicated union, first-seen
mentions first, then the new record's; when either mention string is empty
the first-seen mentions are kept unchanged. -/
theorem C3_collision_merge_amended (a b : Answer)
    (hk : answerKey a = answerKey b)
    (ha : a.mattermost_users ≠ "") (hb : b.mattermost_users ≠ "") :
    dedupAnswers [a, b] =
      [{ a with mattermost_users :=
          " ".intercalate (dedupFirst
            (pySplit a.mattermost_users ++ pySplit b.mattermost_users)) }] := by
  unfold dedupAnswers
  simp only [List.foldl_cons, List.foldl_nil]
  have h1 : insertAnswer [] a = [a] := by simp [insertAnswer]
  rw [h1]
  unfold insertAnswer
  rw [if_pos (by simp [hk])]
  simp [hk, mergeUsers, ha, hb]

/-- Witness for the amended C3: merging mention sets `A B` and `B C` on a
collision yields `A B C`, with `A` and `B` preceding `C`. -/
theorem C3_collision_merge_amended_witness :
    answerKey { baseAnswer with mattermost_users := "A B" } =
      answerKey { baseAnswer with mattermost_users := "B C" } ∧
    ({ baseAnswer with mattermost_users := "A B" } : Answer).mattermost_users ≠ "" ∧
    ({ baseAnswer with mattermost_users := "B C" } : Answer).mattermost_users ≠ "" ∧
    dedupAnswers [{ baseAnswer with mattermost_users := "A B" },
        { baseAnswer with mattermost_users := "B C" }] =
      [{ baseAnswer with mattermost_users := "A B C" }] := by
  refine ⟨rfl, by decide, by decide, ?_⟩
  rw [C3_collision_merge_amended { baseAnswer with mattermost_users := "A B" }
    { baseAnswer with mattermost_users := "B C" } rfl (by decide) (by decide)]
  decide

/-! ### Claim C4 -/

def c4current : Inquiry :=
  { baseInq with replies := 2, replies_data := [answerReplyX, emptyAuthorReply] }

def c4previous : Inquiry :=
  { baseInq with replies := 1, replies_data := [answerReplyX] }

def c4witInq : Inquiry :=
  { baseInq with
    id := "4", replies := 2,
    replies_data := [emptyAuthorReply, answerReplyX] }

def c4witAns : Answer :=
  { baseAnswer with
    id := "4", current_replies := 2, new_count := 2,
    reply_authors := ["X"] }

/-- Counterexample to claim C4 as stated: the code skips replies whose
author is the empty string, so for a new-reply window containing only an
empty-author reply the emitted author list is `[]`, not the de-duplicated
author list `[""]` of the window. -/
theorem C4_counterexample :
    (compare_and_notify_new_answers api0 names0 users0 [c4current] [c4previous]).map
        (fun a => a.reply_authors) = [[]] ∧
    dedupFirst (((c4current.replies_data.take 2).drop 1).map Reply.author) = [""] := by
  decide

/-- Claim C4 (amended): for every emitted change record, provided the
record's reply count equals its reply-list length, the new-reply-author
list is the de-duplicated (first occurrence, order preserved) list of the
NON-EMPTY authors of the replies at positions
`[previous_count, current_count)`; and whenever the reply list is shorter
than the previous count the extracted slice is empty — no indexing ever
goes past the end of the list. -/
theorem C4_new_authors_amended (api : String → String → Option String)
    (names users : String → String) (pl : String → Option Inquiry)
    (it : Inquiry) (a : Answer)
    (h : processItem api names users pl it = some a) :
    (it.replies = it.replies_data.length →
        a.reply_authors =
          dedupNonempty (((it.replies_data.take a.current_replies).drop
            a.previous_replies).map Reply.author)) ∧
    (it.replies_data.length ≤ a.previous_replies → a.reply_authors = []) := by
  obtain ⟨_, _, heq⟩ := processItem_eq_some h
  constructor
  · intro hlen
    rw [heq]
    show collectAuthors (newRepliesSlice it.replies_data (lookupCount pl (inqKey it))) =
      dedupNonempty (((it.replies_data.take it.replies).drop
        (lookupCount pl (inqKey it))).map Reply.author)
    have ht : it.replies_data.take it.replies = it.replies_data := by
      rw [hlen]; exact List.take_length _
    rw [ht, collectAuthors_eq_dedupNonempty, newRepliesSlice_eq_drop]
  · intro hle
    rw [heq] at hle ⊢
    have hle' : it.replies_data.length ≤ lookupCount pl (inqKey it) := hle
    show collectAuthors (newRepliesSlice it.replies_data (lookupCount pl (inqKey it))) = []
    unfold newRepliesSlice
    rw [if_neg (by omega)]
    rfl

/-- Witness for the amended C4: a record whose new-reply window holds one
prolongation reply with an empty author and one reply by `X`. -/
theorem C4_new_authors_amended_witness :
    processItem api0 names0 users0 (prevLookup [baseInq]) c4witInq = some c4witAns ∧
    (c4witInq.replies = c4witInq.replies_data.length →
      c4witAns.reply_authors =
        dedupNonempty (((c4witInq.replies_data.take c4witAns.current_replies).drop
          c4witAns.previous_replies).map Reply.author)) :=
  ⟨by decide,
    (C4_new_authors_amended api0 names0 users0 (prevLookup [baseInq])
      c4witInq c4witAns (by decide)).1⟩

/-! ### Claim C6 -/

lemma pyMin_foldl_some (l : List String) :
    ∀ m : String,
      ∃ v, l.foldl (fun acc s =>
        match acc with
        | none => some s
        | some m => if s < m then some s else some m) (some m) = some v := by
  induction l with
  | nil => intro m; exact ⟨m, rfl⟩
  | cons s l ih =>
      intro m
      simp only [List.foldl_cons]
      by_cases h : s < m
      · simpa [h] using ih s
      · simpa [h] using ih m

lemma pyMin_cons (s : String) (l : List String) :
    ∃ v, pyMin (s :: l) = some v :=
  pyMin_foldl_some l s

/-- In `get_interpellation_timing_info` the returned first-response date is
the earliest non-empty `lastModified`, provided at least one reply carries a
non-empty receipt date. -/
lemma timing_first_response (rs : List Reply)
    (hrec : ((rs.map Reply.receiptDate).filter (fun s => s ≠ "")) ≠ []) :
    (get_interpellation_timing_info rs).2.1 = minLastModified rs := by
  unfold get_interpellation_timing_info
  cases hl : (rs.map Reply.receiptDate).filter (fun s => s ≠ "") with
  | nil => exact absurd hl hrec
  | cons s l =>
      obtain ⟨v, hv⟩ := pyMin_cons s l
      simp only [hl, hv]

def c6reply : Reply :=
  { key := "k6", prolongation := false, lastModified := "2024-01-02T00:00:00",
    receiptDate := "", author := "A" }

def c6current : Inquiry :=
  { baseInq with
    replies := 1
    replies_data := [c6reply] }

def c6witReply : Reply :=
  { key := "k7", prolongation := false, lastModified := "2024-01-05T00:00:00",
    receiptDate := "2024-01-01", author := "B" }

def c6witInq : Inquiry :=
  { baseInq with
    id := "6"
    replies := 1
    submission_date := some "2024-01-01"
    replies_data := [c6witReply] }

def c6witAns : Answer :=
  { baseAnswer with
    id := "6", reply_authors := ["B"],
    submission_date := some "2024-01-01",
    first_response_date := some "2024-01-05T00:00:00",
    days_to_response := some 4 }

/-- Counterexample to claim C6 as stated: when neither the record field nor
the API lookup yields a submission date, the receipt-date fallback path
returns no first-response date at all if no reply has a receipt date — even
though the reply list has a minimum `lastModified`
(`"2024-01-02T00:00:00"` here), so the emitted first-response date is not
that minimum. -/
theorem C6_counterexample :
    c6current.submission_date = none ∧
    pyMin ((c6current.replies_data.map Reply.lastModified).filter (fun s => s ≠ "")) =
      some "2024-01-02T00:00:00" ∧
    (compare_and_notify_new_answers api0 names0 users0 [c6current] [baseInq]).map
      (fun a => a.first_response_date) = [none] := by
  decide

/-- Claim C6 (amended): for every emitted change record, the first-response
date equals the minimum of the non-empty `lastModified` values over the
whole current reply list, provided the submission date resolved through the
record field or the API lookup, or — in the minimum-receipt-date fallback
path — at least one reply carries a non-empty receipt date; this holds
regardless of WHICH of these three resolution paths succeeded. -/
theorem C6_first_response_amended (api : String → String → Option String)
    (names users : String → String) (pl : String → Option Inquiry)
    (it : Inquiry) (a : Answer)
    (h : processItem api names users pl it = some a)
    (hres : strOptTruthy it.submission_date = true ∨
      strOptTruthy (api it.id it.type_) = true ∨
      ((it.replies_data.map Reply.receiptDate).filter (fun s => s ≠ "")) ≠ []) :
    a.first_response_date =
      pyMin ((it.replies_data.map Reply.lastModified).filter (fun s => s ≠ "")) := by
  obtain ⟨_, _, heq⟩ := processItem_eq_some h
  rw [heq, ← minLastModified_eq_pyMin]
  show (resolveTiming api it).2.1 = minLastModified it.replies_data
  unfold resolveTiming
  by_cases h1 : strOptTruthy it.submission_date = true
  · cases hsd : it.submission_date with
    | none => rw [hsd] at h1; exact absurd h1 (by simp [strOptTruthy])
    | some s =>
        have hs : s ≠ "" := by rw [hsd] at h1; simpa [strOptTruthy] using h1
        have hT : strOptTruthy (some s) = true := by simp [strOptTruthy, hs]
        simp [hsd, hT, hs]
  · have h1' : strOptTruthy it.submission_date = false := by
      simpa using h1
    cases happ : api it.id it.type_ with
    | some s =>
        by_cases hs : s = ""
        · subst hs
          have hrec : ((it.replies_data.map Reply.receiptDate).filter (fun s => s ≠ "")) ≠ [] := by
            rcases hres with h' | h' | h'
            · rw [h1'] at h'; exact absurd h' (by simp)
            · rw [happ] at h'; exact absurd h' (by simp [strOptTruthy])
            · exact h'
          simp only [h1', Bool.false_eq_true, if_false, happ]
          simp only [ne_eq, not_true_eq_false, if_false]
          exact timing_first_response it.replies_data hrec
        · simp [h1', happ, hs]
    | none =>
        have hrec : ((it.replies_data.map Reply.receiptDate).filter (fun s => s ≠ "")) ≠ [] := by
          rcases hres with h' | h' | h'
          · rw [h1'] at h'; exact absurd h' (by simp)
          · rw [happ] at h'; exact absurd h' (by simp [strOptTruthy])
          · exact h'
        simp only [h1', Bool.false_eq_true, if_false, happ]
        exact timing_first_response it.replies_data hrec

/-- Witness for the amended C6: the record-field path resolves the
submission date and the first-response date is the single reply's
`lastModified`. -/
theorem C6_first_response_amended_witness :
    processItem api0 names0 users0 (prevLookup [baseInq]) c6witInq = some c6witAns ∧
    strOptTruthy c6witInq.submission_date = true ∧
    c6witAns.first_response_date =
      pyMin ((c6witInq.replies_data.map Reply.lastModified).filter (fun s => s ≠ "")) :=
  ⟨by decide, by decide,
    C6_first_response_amended api0 names0 users0 (prevLookup [baseInq])
      c6witInq c6witAns (by decide) (Or.inl (by decide))⟩
